import Mathlib

/-!
Verification of `Weather_app.py`.

The development shallowly embeds the forecast-aggregation core
(`summarize_forecast`, source lines 65-99), the time bucketing and display
helpers (`pretty_time_from_unix`, lines 59-62), the text renderer
(`print_forecast_summary`, lines 125-134) and the control flow of the
text-mode entry point (`main` / `run_cli` / `get_api_key`).

Modelling conventions:
  - Unix timestamps are `Int` seconds since the epoch; the Python value
    `datetime.utcfromtimestamp(ts).date()` is represented by the day number
    `ts.fdiv 86400`.  Distinct UTC calendar dates correspond exactly to
    distinct day numbers, and the lexicographic order on the ISO strings
    produced by `date.isoformat()` agrees with the numeric order on day
    numbers, so bucketing and sorting are stated on day numbers; the
    function `isoDate` below renders a day number the way the source
    renders a date.
  - Temperatures are `Rat`.  `statistics.mean` computes the exact
    fraction sum(xs)/len(xs) internally before converting to float, so
    rational arithmetic is a faithful model of the mean.
  - A Python dict built by `setdefault`/`append` keyed by date holds, for
    each key, the values of the entries with that key in input order; the
    bucket of key `d` is therefore `samples.filter (fun s => dateKey s.dt = d)`
    and the key set is the set of distinct keys, here `dedup` of the key list.
  - `max(set(xs), key=xs.count)` iterates the set in an order the language
    does not specify and keeps the first element attaining the maximal
    count.  The model enumerates the distinct elements as `xs.dedup`, one
    admissible enumeration; lemmas that depend on the winner being unique
    are proved for every enumeration order.
-/

namespace Weather

/-- One 3-hourly forecast sample, as read from one entry of the `list`
array of the forecast payload: `dt` (line 73), `main.temp` (line 76),
`weather[0].description` (line 77), `weather[0].icon` (line 78; the
`.get` access yields `None` when the key is missing). -/
structure ForecastSample where
  dt : Int
  temp : Rat
  description : String
  icon : Option String
  deriving DecidableEq

/-- One output record of `summarize_forecast` (source lines 91-98).
Field names follow the dict keys of the source; `date` is the UTC day
number represented by the ISO date string of the source. -/
@[ext]
structure DaySummary where
  date : Int
  min_temp : Rat
  max_temp : Rat
  avg_temp : Rat
  typical_weather : String
  icon : Option String
  deriving DecidableEq

/-- Source lines 74-75: `datetime.utcfromtimestamp(ts).date()`, i.e. the
UTC calendar day containing the instant `ts`, with no timezone shift. -/
def dateKey (ts : Int) : Int := ts.fdiv 86400

/-- The bucket of day `d`: the samples whose timestamp truncates to `d`,
in input order (source lines 72-82, the `setdefault`/`append` loop). -/
def dayGroup (samples : List ForecastSample) (d : Int) : List ForecastSample :=
  samples.filter (fun s => dateKey s.dt = d)

/-- Python `min(temps)` over a nonempty list (source line 93); the empty
case never arises and is given the junk value 0. -/
def listMin : List Rat → Rat
  | [] => 0
  | [x] => x
  | x :: y :: xs => min x (listMin (y :: xs))

/-- Python `max(temps)` over a nonempty list (source line 94). -/
def listMax : List Rat → Rat
  | [] => 0
  | [x] => x
  | x :: y :: xs => max x (listMax (y :: xs))

/-- Python `max(iterable, key=c)`: the first element of the iterable
attaining the maximal key; `none` on an empty iterable (where Python
raises).  A later element replaces the current best only when its key is
strictly larger. -/
def pyArgmax {α : Type} (c : α → Nat) : List α → Option α
  | [] => none
  | x :: xs => some (xs.foldl (fun best y => if c best < c y then y else best) x)

/-- Source line 89: `max(set(descs), key=descs.count)`.  The set of
distinct values is enumerated as `descs.dedup` (see the header note on
enumeration order).  The `getD` default never fires on the nonempty
lists this is applied to. -/
def mostCommon (descs : List String) : String :=
  (pyArgmax (fun x => descs.count x) descs.dedup).getD ""

/-- Source line 90: `max(set(icons), key=icons.count) if icons else None`.
The list `icons` holds one entry per sample of the bucket, with `none`
for samples that carry no icon, and those `none` entries take part in
the count. -/
def mostCommonIcon (icons : List (Option String)) : Option String :=
  if icons.isEmpty then none
  else (pyArgmax (fun x => icons.count x) icons.dedup).getD none

/-- Source line 85: `sorted(buckets.keys())` — the distinct day keys of
the input, sorted ascending. -/
def sortedKeys (samples : List ForecastSample) : List Int :=
  List.insertionSort (· ≤ ·) (samples.map (fun s => dateKey s.dt)).dedup

/-- The loop body of source lines 85-98: the summary record built from
the bucket of day `d`. -/
def mkSummary (samples : List ForecastSample) (d : Int) : DaySummary :=
  let temps := (dayGroup samples d).map (fun s => s.temp)
  let descs := (dayGroup samples d).map (fun s => s.description)
  let icons := (dayGroup samples d).map (fun s => s.icon)
  { date := d
    min_temp := listMin temps
    max_temp := listMax temps
    avg_temp := temps.sum / (temps.length : Rat)
    typical_weather := mostCommon descs
    icon := mostCommonIcon icons }

/-- Source lines 71-99 applied to an already-extracted sample list. -/
def summarizeSamples (samples : List ForecastSample) : List DaySummary :=
  (sortedKeys samples).map (mkSummary samples)

/-- The forecast payload as far as the aggregator reads it: the optional
`list` key holding the sample array. -/
structure ForecastResponse where
  list? : Option (List ForecastSample)
  deriving DecidableEq

/-- Source lines 65-99: `summarize_forecast`.  Line 70 reads
`forecast_json.get("list", [])`, so a missing `list` key behaves as an
empty sample sequence. -/
def summarize_forecast (forecast_json : ForecastResponse) : List DaySummary :=
  summarizeSamples (forecast_json.list?.getD [])

/-- Gregorian civil date from a day number (days since 1970-01-01),
the standard era-based algorithm; models what
`datetime.utcfromtimestamp` produces for the date part. -/
def civilFromDays (z : Int) : Int × Nat × Nat :=
  let z' := z + 719468
  let era : Int := z'.fdiv 146097
  let doe : Nat := (z' - era * 146097).toNat
  let yoe : Nat := (doe - doe / 1460 + doe / 36524 - doe / 146096) / 365
  let y : Int := (yoe : Int) + era * 400
  let doy : Nat := doe - (365 * yoe + yoe / 4 - yoe / 100)
  let mp : Nat := (5 * doy + 2) / 153
  let d : Nat := doy - (153 * mp + 2) / 5 + 1
  let m : Nat := if mp < 10 then mp + 3 else mp - 9
  (if m ≤ 2 then y + 1 else y, m, d)

/-- Two-digit zero padding, as in `%m`, `%d`, `%H`, `%M`. -/
def pad2 (n : Nat) : String :=
  if n < 10 then "0" ++ toString n else toString n

/-- Four-digit zero padding, as in `%Y` for the years the source can
meet (Python datetime years lie in 1..9999). -/
def pad4 (n : Nat) : String :=
  if n < 10 then "000" ++ toString n
  else if n < 100 then "00" ++ toString n
  else if n < 1000 then "0" ++ toString n
  else toString n

/-- `date.isoformat()` of the given day number: `YYYY-MM-DD`. -/
def isoDate (z : Int) : String :=
  let c := civilFromDays z
  pad4 c.1.toNat ++ "-" ++ pad2 c.2.1 ++ "-" ++ pad2 c.2.2

/-- Source lines 59-62: `pretty_time_from_unix` shifts the timestamp by
`tz_shift` seconds and formats the shifted instant as
`"%Y-%m-%d %H:%M"` in UTC. -/
def pretty_time_from_unix (ts : Int) (tz_shift : Int) : String :=
  let t := ts + tz_shift
  let secs : Nat := (t.emod 86400).toNat
  isoDate (t.fdiv 86400) ++ " " ++ pad2 (secs / 3600) ++ ":" ++ pad2 (secs % 3600 / 60)

/-- Python `str.capitalize()`: first character upper-cased, the rest
lower-cased (source line 132). -/
def pyCapitalize (s : String) : String :=
  match s.data with
  | [] => s
  | c :: cs => String.mk (c.toUpper :: cs.map Char.toLower)

/-- Right padding to a field width, as in the format spec `{desc:20}`. -/
def padTo (n : Nat) (s : String) : String :=
  s ++ String.mk (List.replicate (n - s.length) ' ')

/-- Round to the nearest integer, ties to even, the rounding rule of
Python `round`. -/
def roundHalfEven (q : Rat) : Int :=
  let f := q.floor
  let r := q - (f : Rat)
  if r < 1 / 2 then f
  else if 1 / 2 < r then f + 1
  else if f % 2 = 0 then f else f + 1

/-- Python `round(x, 1)` on the rational model of the value. -/
def round1 (q : Rat) : Rat := ((roundHalfEven (10 * q) : Int) : Rat) / 10

/-- Decimal rendering of a multiple of 1/10 with one fractional digit,
the shape Python prints for `round(x, 1)`. -/
def fmt1 (q : Rat) : String :=
  let n : Int := (10 * q).floor
  (if n < 0 then "-" else "") ++ toString (n.natAbs / 10) ++ "." ++ toString (n.natAbs % 10)

/-- Source line 133: the line printed for one day of the summary. -/
def render_day_line (units_label : String) (day : DaySummary) : String :=
  "  " ++ isoDate day.date ++ " — " ++ padTo 20 (pyCapitalize day.typical_weather)
    ++ "  min:" ++ fmt1 (round1 day.min_temp) ++ units_label
    ++ "  max:" ++ fmt1 (round1 day.max_temp) ++ units_label
    ++ "  avg:" ++ fmt1 (round1 day.avg_temp) ++ units_label

/-- Source lines 125-134: `print_forecast_summary`, as the list of lines
it prints: the header (line 126), one line per element of
`summary[:days]` (lines 127-133), and the closing empty print
(line 134). -/
def print_forecast_summary (summary : List DaySummary) (units_label : String) (days : Nat) : List String :=
  ("Forecast summary (next " ++ toString (min days summary.length) ++ " days):")
    :: (summary.take days).map (render_day_line units_label) ++ [""]

/-- Python truthiness of an optional string: `None` and `""` are falsy. -/
def truthy : Option String → Bool
  | none => false
  | some s => s ≠ ""

/-- Python `a or b` on optional strings: `b` unless `a` is truthy. -/
def pyOr (a b : Option String) : Option String :=
  if truthy a then a else b

/-- Source lines 15-19: `get_api_key`.  `key = cli_key or
os.environ.get("OPENWEATHER_API_KEY")`; a falsy result raises
`RuntimeError`. -/
def get_api_key (cli_key env_key : Option String) : Except String String :=
  match pyOr cli_key env_key with
  | some k => if k = "" then Except.error "OpenWeather API key not provided." else Except.ok k
  | none => Except.error "OpenWeather API key not provided."

/-- The command-line arguments after parsing (source lines 232-243). -/
structure Args where
  city : Option String
  lat : Option Rat
  lon : Option Rat
  api_key : Option String
  units : String
  save_json : Option String
  days : Nat
  streamlit : Bool
  deriving DecidableEq

deriving instance DecidableEq for Except

/-- The effectful environment a run of the text-mode pipeline meets.
The raw current and forecast payloads are kept opaque (they are only
passed through to the saved document); `parse_ok` stands for the dynamic
field accesses of `summarize_forecast` (lines 73-78) succeeding on the
fetched payload, which happens after persistence; `save_ok` models the
file write as all-or-nothing; `st_exit` abstracts the out-of-scope UI
branch. -/
structure CliWorld where
  env_key : Option String
  geocode : Except String (Rat × Rat × String)
  current : Except String String
  forecastRaw : Except String String
  save_ok : Bool
  parse_ok : Bool
  st_exit : Nat
  deriving DecidableEq

/-- Source lines 137-160: `run_cli`, modelled as the process exit code
together with the document persisted by `--save-json`, if any.
`get_api_key` is called before the `try` block, so its `RuntimeError`
escapes uncaught and the interpreter terminates with status 1; every
exception inside the `try` block is caught and answered with
`sys.exit(1)` (lines 158-160). -/
def run_cli (args : Args) (w : CliWorld) : Nat × Option (List (String × String)) :=
  match get_api_key args.api_key w.env_key with
  | Except.error _ => (1, none)
  | Except.ok _ =>
    let resolved : Except String (Rat × Rat × String) :=
      if args.lat.isSome && args.lon.isSome then
        Except.ok (args.lat.getD 0, args.lon.getD 0,
          toString (args.lat.getD 0) ++ "," ++ toString (args.lon.getD 0))
      else w.geocode
    match resolved with
    | Except.error _ => (1, none)
    | Except.ok r =>
      match w.current with
      | Except.error _ => (1, none)
      | Except.ok cur =>
        match w.forecastRaw with
        | Except.error _ => (1, none)
        | Except.ok fc =>
          match args.save_json with
          | some _ =>
            if w.save_ok then
              let doc := [("resolved", r.2.2), ("current", cur), ("forecast", fc)]
              if w.parse_ok then (0, some doc) else (1, some doc)
            else (1, none)
          | none => if w.parse_ok then (0, none) else (1, none)

/-- Source lines 246-263: `main` in text mode, as exit code plus saved
document.  Line 250: `--lat` without `--lon` exits 2; line 254: the
`--streamlit` branch is out of scope and abstracted by the environment;
line 259: no location input exits 2; otherwise `run_cli` runs. -/
def main_exit (args : Args) (w : CliWorld) : Nat × Option (List (String × String)) :=
  if args.lat.isSome && args.lon.isNone then (2, none)
  else if args.streamlit then (w.st_exit, none)
  else if args.lat.isNone && !(truthy args.city) then (2, none)
  else run_cli args w

/-- A usage or location-input error of the text-mode entry point
(source lines 250 and 259). -/
def usage_error (args : Args) : Bool :=
  (args.lat.isSome && args.lon.isNone) || (args.lat.isNone && !(truthy args.city))

/-- A failure of one of the fallible steps inside the `try` block of
`run_cli`: geocoding (when coordinates were not given), either fetch,
the requested save, or the dynamic parse during summarising. -/
def runtime_failure (args : Args) (w : CliWorld) : Bool :=
  (!(args.lat.isSome && args.lon.isSome) && !w.geocode.isOk)
    || !w.current.isOk || !w.forecastRaw.isOk
    || (args.save_json.isSome && !w.save_ok) || !w.parse_ok

/-- A list has a strict-majority element: one member whose
multiplicity strictly exceeds that of every other value. -/
def hasUniqueMax {α : Type} [BEq α] (l : List α) : Prop :=
  ∃ m, m ∈ l ∧ ∀ x ∈ l, x ≠ m → l.count x < l.count m

instance hasUniqueMaxDec {α : Type} [BEq α] [DecidableEq α] (l : List α) :
    Decidable (hasUniqueMax l) :=
  @List.decidableBEx _ (fun m => ∀ x ∈ l, x ≠ m → l.count x < l.count m)
    (fun m => @List.decidableBAll _ (fun x => x ≠ m → l.count x < l.count m)
      (fun _ => inferInstance) l) l

/-! ### Basic facts about the summary fields -/

@[simp] theorem mkSummary_date (samples : List ForecastSample) (d : Int) :
    (mkSummary samples d).date = d := rfl

@[simp] theorem mkSummary_min_temp (samples : List ForecastSample) (d : Int) :
    (mkSummary samples d).min_temp = listMin ((dayGroup samples d).map (fun s => s.temp)) := rfl

@[simp] theorem mkSummary_max_temp (samples : List ForecastSample) (d : Int) :
    (mkSummary samples d).max_temp = listMax ((dayGroup samples d).map (fun s => s.temp)) := rfl

@[simp] theorem mkSummary_avg_temp (samples : List ForecastSample) (d : Int) :
    (mkSummary samples d).avg_temp =
      ((dayGroup samples d).map (fun s => s.temp)).sum
        / (((dayGroup samples d).map (fun s => s.temp)).length : Rat) := rfl

@[simp] theorem mkSummary_typical_weather (samples : List ForecastSample) (d : Int) :
    (mkSummary samples d).typical_weather =
      mostCommon ((dayGroup samples d).map (fun s => s.description)) := rfl

@[simp] theorem mkSummary_icon (samples : List ForecastSample) (d : Int) :
    (mkSummary samples d).icon =
      mostCommonIcon ((dayGroup samples d).map (fun s => s.icon)) := rfl

theorem listMin_le {l : List Rat} {x : Rat} (hx : x ∈ l) : listMin l ≤ x := by
  induction l with
  | nil => cases hx
  | cons a t ih =>
    cases t with
    | nil =>
      rcases List.mem_singleton.1 hx with rfl
      exact le_refl _
    | cons b u =>
      rcases List.mem_cons.1 hx with rfl | hx'
      · exact min_le_left _ _
      · exact le_trans (min_le_right a (listMin (b :: u))) (ih hx')

theorem listMin_mem : ∀ {l : List Rat}, l ≠ [] → listMin l ∈ l := by
  intro l
  induction l with
  | nil => intro h; exact absurd rfl h
  | cons a t ih =>
    intro _
    cases t with
    | nil => exact List.mem_singleton.2 rfl
    | cons b u =>
      rcases le_total a (listMin (b :: u)) with h | h
      · have he : listMin (a :: b :: u) = a := min_eq_left h
        rw [he]; exact List.mem_cons_self _ _
      · have he : listMin (a :: b :: u) = listMin (b :: u) := min_eq_right h
        rw [he]; exact List.mem_cons_of_mem _ (ih (by simp))

theorem le_listMax {l : List Rat} {x : Rat} (hx : x ∈ l) : x ≤ listMax l := by
  induction l with
  | nil => cases hx
  | cons a t ih =>
    cases t with
    | nil =>
      rcases List.mem_singleton.1 hx with rfl
      exact le_refl _
    | cons b u =>
      rcases List.mem_cons.1 hx with rfl | hx'
      · exact le_max_left _ _
      · exact le_trans (ih hx') (le_max_right a (listMax (b :: u)))

theorem listMax_mem : ∀ {l : List Rat}, l ≠ [] → listMax l ∈ l := by
  intro l
  induction l with
  | nil => intro h; exact absurd rfl h
  | cons a t ih =>
    intro _
    cases t with
    | nil => exact List.mem_singleton.2 rfl
    | cons b u =>
      rcases le_total (listMax (b :: u)) a with h | h
      · have he : listMax (a :: b :: u) = a := max_eq_left h
        rw [he]; exact List.mem_cons_self _ _
      · have he : listMax (a :: b :: u) = listMax (b :: u) := max_eq_right h
        rw [he]; exact List.mem_cons_of_mem _ (ih (by simp))

theorem length_mul_le_sum {l : List Rat} {m : Rat} (h : ∀ x ∈ l, m ≤ x) :
    (l.length : Rat) * m ≤ l.sum := by
  induction l with
  | nil => simp
  | cons a t ih =>
    have ha := h a (List.mem_cons_self a t)
    have ht := ih (fun x hx => h x (List.mem_cons_of_mem _ hx))
    simp only [List.length_cons, List.sum_cons, Nat.cast_add, Nat.cast_one]
    nlinarith [ht, ha]

theorem sum_le_length_mul {l : List Rat} {m : Rat} (h : ∀ x ∈ l, x ≤ m) :
    l.sum ≤ (l.length : Rat) * m := by
  induction l with
  | nil => simp
  | cons a t ih =>
    have ha := h a (List.mem_cons_self a t)
    have ht := ih (fun x hx => h x (List.mem_cons_of_mem _ hx))
    simp only [List.length_cons, List.sum_cons, Nat.cast_add, Nat.cast_one]
    nlinarith [ht, ha]

theorem listMin_perm {l l' : List Rat} (h : l.Perm l') : listMin l = listMin l' := by
  cases l with
  | nil =>
    have : l' = [] := List.Perm.eq_nil h.symm
    rw [this]
  | cons a t =>
    have hne : l' ≠ [] := by
      intro h0
      subst h0
      exact List.cons_ne_nil a t (List.Perm.eq_nil h)
    apply le_antisymm
    · exact listMin_le (h.mem_iff.2 (listMin_mem hne))
    · exact listMin_le (h.mem_iff.1 (listMin_mem (List.cons_ne_nil a t)))

theorem count_perm {α : Type} [BEq α] {l l' : List α} (h : l.Perm l') (a : α) :
    l.count a = l'.count a := by
  induction h with
  | nil => rfl
  | cons x _ ih => simp [List.count_cons, ih]
  | swap x y l => simp only [List.count_cons]; omega
  | trans _ _ ih1 ih2 => exact ih1.trans ih2

theorem listMax_perm {l l' : List Rat} (h : l.Perm l') : listMax l = listMax l' := by
  cases l with
  | nil =>
    have : l' = [] := List.Perm.eq_nil h.symm
    rw [this]
  | cons a t =>
    have hne : l' ≠ [] := by
      intro h0
      subst h0
      exact List.cons_ne_nil a t (List.Perm.eq_nil h)
    apply le_antisymm
    · exact le_listMax (h.mem_iff.1 (listMax_mem (List.cons_ne_nil a t)))
    · exact le_listMax (h.mem_iff.2 (listMax_mem hne))

/-! ### The first-maximum scan of Python max -/

theorem pyArgmax_go_eq {α : Type} (c : α → Nat) (m : α) :
    ∀ (xs : List α) (b : α), (∀ x ∈ xs, x ≠ m → c x < c m) →
      (b = m ∨ (m ∈ xs ∧ c b < c m)) →
      xs.foldl (fun best y => if c best < c y then y else best) b = m := by
  intro xs
  induction xs with
  | nil =>
    intro b _ hb
    rcases hb with rfl | ⟨h, _⟩
    · rfl
    · cases h
  | cons y ys ih =>
    intro b hlt hb
    have hlt' : ∀ x ∈ ys, x ≠ m → c x < c m := fun x hx => hlt x (List.mem_cons_of_mem _ hx)
    simp only [List.foldl_cons]
    rcases hb with hbm | ⟨hmem, hcb⟩
    · have hy : ¬ c b < c y := by
        by_cases hym : y = m
        · rw [hbm, hym]; exact lt_irrefl _
        · rw [hbm]; exact not_lt_of_ge (le_of_lt (hlt y (List.mem_cons_self _ _) hym))
      rw [if_neg hy]
      exact ih b hlt' (Or.inl hbm)
    · by_cases hym : y = m
      · subst hym
        rw [if_pos hcb]
        exact ih y hlt' (Or.inl rfl)
      · have hy : c y < c m := hlt y (List.mem_cons_self _ _) hym
        have hm' : m ∈ ys := by
          rcases List.mem_cons.1 hmem with h | h
          · exact absurd h.symm hym
          · exact h
        by_cases hby : c b < c y
        · rw [if_pos hby]; exact ih y hlt' (Or.inr ⟨hm', hy⟩)
        · rw [if_neg hby]; exact ih b hlt' (Or.inr ⟨hm', hcb⟩)

theorem pyArgmax_majority {α : Type} (c : α → Nat) {o : List α} {m : α}
    (hm : m ∈ o) (hlt : ∀ x ∈ o, x ≠ m → c x < c m) : pyArgmax c o = some m := by
  cases o with
  | nil => cases hm
  | cons x xs =>
    have hlt' : ∀ z ∈ xs, z ≠ m → c z < c m := fun z hz => hlt z (List.mem_cons_of_mem _ hz)
    show some _ = some m
    congr 1
    by_cases hxm : x = m
    · exact pyArgmax_go_eq c m xs x hlt' (Or.inl hxm)
    · have hmxs : m ∈ xs := by
        rcases List.mem_cons.1 hm with h | h
        · exact absurd h.symm hxm
        · exact h
      exact pyArgmax_go_eq c m xs x hlt'
        (Or.inr ⟨hmxs, hlt x (List.mem_cons_self _ _) hxm⟩)

theorem pyArgmax_go_mem {α : Type} (c : α → Nat) :
    ∀ (xs : List α) (b : α),
      xs.foldl (fun best y => if c best < c y then y else best) b = b ∨
        xs.foldl (fun best y => if c best < c y then y else best) b ∈ xs := by
  intro xs
  induction xs with
  | nil => intro b; exact Or.inl rfl
  | cons y ys ih =>
    intro b
    simp only [List.foldl_cons]
    by_cases h : c b < c y
    · rw [if_pos h]
      rcases ih y with h' | h'
      · exact Or.inr (by rw [h']; exact List.mem_cons_self _ _)
      · exact Or.inr (List.mem_cons_of_mem _ h')
    · rw [if_neg h]
      rcases ih b with h' | h'
      · exact Or.inl h'
      · exact Or.inr (List.mem_cons_of_mem _ h')

theorem pyArgmax_mem {α : Type} {c : α → Nat} {o : List α} {r : α}
    (h : pyArgmax c o = some r) : r ∈ o := by
  cases o with
  | nil => cases h
  | cons x xs =>
    have h2 : xs.foldl (fun best y => if c best < c y then y else best) x = r :=
      Option.some.inj h
    rcases pyArgmax_go_mem c xs x with h' | h'
    · rw [h2] at h'
      rw [h']; exact List.mem_cons_self _ _
    · rw [h2] at h'
      exact List.mem_cons_of_mem _ h'

theorem mostCommon_majority {l : List String} {m : String}
    (hm : m ∈ l) (hmaj : ∀ x ∈ l, x ≠ m → l.count x < l.count m) :
    mostCommon l = m := by
  unfold mostCommon
  rw [pyArgmax_majority (fun x => l.count x) (List.mem_dedup.2 hm)
    (fun x hx hne => hmaj x (List.mem_dedup.1 hx) hne)]
  rfl

theorem mostCommon_singleton (x : String) : mostCommon [x] = x := by
  unfold mostCommon
  rw [List.dedup_cons_of_not_mem (List.not_mem_nil x), List.dedup_nil]
  rfl

theorem mostCommonIcon_majority {l : List (Option String)} {m : Option String}
    (hm : m ∈ l) (hmaj : ∀ x ∈ l, x ≠ m → l.count x < l.count m) :
    mostCommonIcon l = m := by
  have hne : l.isEmpty = false := by
    cases l with
    | nil => cases hm
    | cons a t => rfl
  have h2 : pyArgmax (fun x => l.count x) l.dedup = some m :=
    pyArgmax_majority _ (List.mem_dedup.2 hm)
      (fun x hx hne2 => hmaj x (List.mem_dedup.1 hx) hne2)
  simp [mostCommonIcon, hne, h2]

theorem mostCommonIcon_none {l : List (Option String)} (h : ∀ i ∈ l, i = none) :
    mostCommonIcon l = none := by
  unfold mostCommonIcon
  by_cases he : l.isEmpty
  · simp [he]
  · cases h2 : pyArgmax (fun x => l.count x) l.dedup with
    | none => simp [he, h2]
    | some r =>
      have hr : r = none := h r (List.mem_dedup.1 (pyArgmax_mem h2))
      simp [he, h2, hr]

/-! ### The sorted key list and bucket membership -/

theorem mem_sortedKeys {samples : List ForecastSample} {d : Int} :
    d ∈ sortedKeys samples ↔ ∃ s ∈ samples, dateKey s.dt = d := by
  unfold sortedKeys
  rw [(List.perm_insertionSort _ _).mem_iff, List.mem_dedup, List.mem_map]

theorem nodup_sortedKeys (samples : List ForecastSample) : (sortedKeys samples).Nodup :=
  ((List.perm_insertionSort _ _).nodup_iff).2 (List.nodup_dedup _)

theorem sorted_lt_sortedKeys (samples : List ForecastSample) :
    (sortedKeys samples).Sorted (· < ·) :=
  (List.sorted_insertionSort _ _).lt_of_le (nodup_sortedKeys samples)

theorem map_date_summarize (samples : List ForecastSample) :
    (summarizeSamples samples).map (fun ds => ds.date) = sortedKeys samples := by
  unfold summarizeSamples
  rw [List.map_map]
  simp [Function.comp_def]

theorem sortedKeys_perm {samples samples' : List ForecastSample} (h : samples.Perm samples') :
    sortedKeys samples = sortedKeys samples' := by
  apply List.eq_of_perm_of_sorted (r := (· ≤ ·))
  · exact (List.perm_insertionSort _ _).trans
      (((h.map _).dedup).trans (List.perm_insertionSort _ _).symm)
  · exact List.sorted_insertionSort _ _
  · exact List.sorted_insertionSort _ _

theorem filter_eq_single {l : List Int} {d : Int} (hn : l.Nodup) (hd : d ∈ l) :
    l.filter (fun k => k = d) = [d] := by
  induction l with
  | nil => cases hd
  | cons x xs ih =>
    rcases List.nodup_cons.1 hn with ⟨hx, hxs⟩
    by_cases hxd : x = d
    · subst hxd
      have h0 : xs.filter (fun k => k = x) = [] := by
        rw [List.filter_eq_nil_iff]
        intro a ha
        simp only [decide_eq_true_eq]
        intro h
        subst h
        exact hx ha
      simp [List.filter_cons, h0]
    · have hd' : d ∈ xs := by
        rcases List.mem_cons.1 hd with h | h
        · exact absurd h.symm hxd
        · exact h
      simp [List.filter_cons, hxd, ih hxs hd']

theorem summarize_filter_date {samples : List ForecastSample} {d : Int}
    (hd : d ∈ sortedKeys samples) :
    (summarizeSamples samples).filter (fun ds => ds.date = d) = [mkSummary samples d] := by
  unfold summarizeSamples
  rw [List.filter_map]
  have hcongr : (sortedKeys samples).filter ((fun ds => decide (ds.date = d)) ∘ mkSummary samples)
      = (sortedKeys samples).filter (fun k => k = d) := by
    apply List.filter_congr
    intro k _
    simp [Function.comp_def]
  rw [hcongr, filter_eq_single (nodup_sortedKeys samples) hd]
  rfl

/-! ### The claims -/

/-- C1: for every input sequence of forecast samples the aggregator emits
exactly one DaySummary per distinct calendar date occurring in the input
(the output dates are a permutation of the distinct input day keys),
sorted strictly ascending by date with no duplicates; the empty input
yields the empty output. -/
theorem summarize_one_per_date (samples : List ForecastSample) :
    ((summarizeSamples samples).map (fun ds => ds.date)).Perm
      ((samples.map (fun s => dateKey s.dt)).dedup)
    ∧ ((summarizeSamples samples).map (fun ds => ds.date)).Sorted (· < ·)
    ∧ summarizeSamples [] = [] := by
  refine ⟨?_, ?_, rfl⟩
  · rw [map_date_summarize]
    exact List.perm_insertionSort _ _
  · rw [map_date_summarize]
    exact sorted_lt_sortedKeys samples

/-- C2: when one condition string occurs strictly more often than every
other in the bucket of day `d`, the summary emitted for `d` carries that
string as its typical condition, for every ordering of the input
samples (stated over an arbitrary permutation of the input; the lemma
`pyArgmax_majority` it rests on holds for every enumeration order of
the set of distinct values). -/
theorem typical_condition_majority (samples samples' : List ForecastSample)
    (hp : samples.Perm samples') (d : Int) (m : String)
    (hm : m ∈ (dayGroup samples d).map (fun s => s.description))
    (hmaj : ∀ x ∈ (dayGroup samples d).map (fun s => s.description), x ≠ m →
      ((dayGroup samples d).map (fun s => s.description)).count x
        < ((dayGroup samples d).map (fun s => s.description)).count m) :
    ((summarizeSamples samples').filter (fun ds => ds.date = d)).map
      (fun ds => ds.typical_weather) = [m] := by
  have hgp : (dayGroup samples d).Perm (dayGroup samples' d) := hp.filter _
  have hdp : ((dayGroup samples d).map (fun s => s.description)).Perm
      ((dayGroup samples' d).map (fun s => s.description)) := hgp.map _
  have hm' : m ∈ (dayGroup samples' d).map (fun s => s.description) := hdp.mem_iff.1 hm
  have hmaj' : ∀ x ∈ (dayGroup samples' d).map (fun s => s.description), x ≠ m →
      ((dayGroup samples' d).map (fun s => s.description)).count x
        < ((dayGroup samples' d).map (fun s => s.description)).count m := by
    intro x hx hne
    rw [← hdp.count_eq x, ← hdp.count_eq m]
    exact hmaj x (hdp.mem_iff.2 hx) hne
  have hd : d ∈ sortedKeys samples' := by
    rcases List.mem_map.1 hm' with ⟨s, hs, _⟩
    rcases List.mem_filter.1 hs with ⟨hs1, hs2⟩
    exact mem_sortedKeys.2 ⟨s, hs1, by simpa using hs2⟩
  rw [summarize_filter_date hd]
  simp only [List.map_cons, List.map_nil, mkSummary_typical_weather]
  rw [mostCommon_majority hm' hmaj']

/-- Witness for C2: the strict majority "clear" wins on a shuffled
three-sample day. -/
theorem typical_condition_majority_witness :
    ((summarizeSamples [(⟨21600, 15, "rain", none⟩ : ForecastSample),
        ⟨10800, 20, "clear", none⟩, ⟨0, 10, "clear", none⟩]).filter
      (fun ds => ds.date = 0)).map (fun ds => ds.typical_weather) = ["clear"] :=
  typical_condition_majority
    [(⟨0, 10, "clear", none⟩ : ForecastSample), ⟨10800, 20, "clear", none⟩, ⟨21600, 15, "rain", none⟩]
    [(⟨21600, 15, "rain", none⟩ : ForecastSample), ⟨10800, 20, "clear", none⟩, ⟨0, 10, "clear", none⟩]
    (by decide) 0 "clear" (by decide) (by decide)

/-- C3: every emitted summary satisfies min_temp ≤ avg_temp ≤ max_temp,
where the average is the exact arithmetic mean of the bucket, and a
single-sample bucket yields min = max = avg = that sample temperature
and the sample condition as typical condition. -/
theorem summary_temp_bounds (samples : List ForecastSample) (ds : DaySummary)
    (h : ds ∈ summarizeSamples samples) :
    (ds.min_temp ≤ ds.avg_temp ∧ ds.avg_temp ≤ ds.max_temp)
    ∧ ∀ s : ForecastSample, dayGroup samples ds.date = [s] →
        ds.min_temp = s.temp ∧ ds.max_temp = s.temp ∧ ds.avg_temp = s.temp
          ∧ ds.typical_weather = s.description := by
  rcases List.mem_map.1 h with ⟨d, hd, rfl⟩
  rcases mem_sortedKeys.1 hd with ⟨s0, hs0, hk0⟩
  have hgrp : s0 ∈ dayGroup samples d := by
    simp [dayGroup, List.mem_filter, hs0, hk0]
  have htne : (dayGroup samples d).map (fun s => s.temp) ≠ [] :=
    List.ne_nil_of_mem (List.mem_map_of_mem _ hgrp)
  have hlen : (0 : Rat) < (((dayGroup samples d).map (fun s => s.temp)).length : Rat) := by
    exact_mod_cast List.length_pos.2 htne
  constructor
  · constructor
    · simp only [mkSummary_min_temp, mkSummary_avg_temp]
      rw [le_div_iff₀ hlen, mul_comm]
      exact length_mul_le_sum (fun x hx => listMin_le hx)
    · simp only [mkSummary_max_temp, mkSummary_avg_temp]
      rw [div_le_iff₀ hlen, mul_comm]
      exact sum_le_length_mul (fun x hx => le_listMax hx)
  · intro s hsingle
    simp only [mkSummary_date] at hsingle
    refine ⟨?_, ?_, ?_, ?_⟩
    · simp only [mkSummary_min_temp, mkSummary_date, hsingle]
      rfl
    · simp only [mkSummary_max_temp, mkSummary_date, hsingle]
      rfl
    · simp only [mkSummary_avg_temp, mkSummary_date, hsingle]
      simp
    · simp only [mkSummary_typical_weather, mkSummary_date, hsingle]
      exact mostCommon_singleton s.description

/-- Witness for C3 at a one-sample day. -/
theorem summary_temp_bounds_witness :
    ((mkSummary [(⟨0, 10, "clear", none⟩ : ForecastSample)] 0).min_temp
        ≤ (mkSummary [(⟨0, 10, "clear", none⟩ : ForecastSample)] 0).avg_temp
      ∧ (mkSummary [(⟨0, 10, "clear", none⟩ : ForecastSample)] 0).avg_temp
        ≤ (mkSummary [(⟨0, 10, "clear", none⟩ : ForecastSample)] 0).max_temp)
    ∧ ((mkSummary [(⟨0, 10, "clear", none⟩ : ForecastSample)] 0).min_temp = 10
      ∧ (mkSummary [(⟨0, 10, "clear", none⟩ : ForecastSample)] 0).max_temp = 10
      ∧ (mkSummary [(⟨0, 10, "clear", none⟩ : ForecastSample)] 0).avg_temp = 10
      ∧ (mkSummary [(⟨0, 10, "clear", none⟩ : ForecastSample)] 0).typical_weather = "clear") := by
  have hmem : mkSummary [(⟨0, 10, "clear", none⟩ : ForecastSample)] 0
      ∈ summarizeSamples [(⟨0, 10, "clear", none⟩ : ForecastSample)] :=
    List.mem_map_of_mem (mkSummary [(⟨0, 10, "clear", none⟩ : ForecastSample)])
      (show (0 : Int) ∈ sortedKeys [(⟨0, 10, "clear", none⟩ : ForecastSample)] by decide)
  have h := summary_temp_bounds [(⟨0, 10, "clear", none⟩ : ForecastSample)]
    (mkSummary [(⟨0, 10, "clear", none⟩ : ForecastSample)] 0) hmem
  exact ⟨h.1, h.2 ⟨0, 10, "clear", none⟩ (by decide)⟩

/-- C4: every sample is assigned to exactly one summary, keyed by the
unshifted UTC truncation of its timestamp, while the display helper
forms its output from the timestamp with the timezone offset already
added: shifting is equivalent to displaying the shifted instant at
offset zero. -/
theorem bucket_unshifted_display_shifted (samples : List ForecastSample)
    (s : ForecastSample) (hs : s ∈ samples) :
    ((summarizeSamples samples).filter (fun ds => ds.date = dateKey s.dt)).length = 1
    ∧ ∀ ts shift : Int, pretty_time_from_unix ts shift = pretty_time_from_unix (ts + shift) 0 := by
  constructor
  · rw [summarize_filter_date (mem_sortedKeys.2 ⟨s, hs, rfl⟩)]
    rfl
  · intro ts shift
    simp [pretty_time_from_unix]

/-- Witness for C4 at a concrete sample and a concrete timestamp with
the offset of five and a half hours. -/
theorem bucket_unshifted_display_shifted_witness :
    ((summarizeSamples [(⟨3600, 5, "mist", none⟩ : ForecastSample)]).filter
      (fun ds => ds.date = dateKey 3600)).length = 1
    ∧ pretty_time_from_unix 1700000000 19800 = pretty_time_from_unix (1700000000 + 19800) 0 := by
  have h := bucket_unshifted_display_shifted [(⟨3600, 5, "mist", none⟩ : ForecastSample)]
    ⟨3600, 5, "mist", none⟩ (by decide)
  exact ⟨h.1, h.2 1700000000 19800⟩

/-- C10: a forecast payload that lacks the list key aggregates to the
empty output, the same result as an empty sample sequence. -/
theorem missing_list_empty (fj : ForecastResponse) (h : fj.list? = none) :
    summarize_forecast fj = [] ∧ summarize_forecast fj = summarizeSamples [] := by
  unfold summarize_forecast
  rw [h]
  exact ⟨rfl, rfl⟩

/-- Witness for C10 at the concrete payload with no list key. -/
theorem missing_list_empty_witness :
    summarize_forecast { list? := none } = []
      ∧ summarize_forecast { list? := none } = summarizeSamples [] :=
  missing_list_empty { list? := none } rfl

/-- C5 counterexample: the two orderings of a two-sample day whose
conditions tie in frequency produce different typical conditions under
the first-of-the-enumeration tie-break, so the outputs are not
identical; the claim as stated fails on tied buckets. -/
theorem summarize_order_cx :
    List.Perm [(⟨0, 10, "a", none⟩ : ForecastSample), ⟨3600, 20, "b", none⟩]
      [(⟨3600, 20, "b", none⟩ : ForecastSample), ⟨0, 10, "a", none⟩]
    ∧ (summarizeSamples [(⟨0, 10, "a", none⟩ : ForecastSample), ⟨3600, 20, "b", none⟩]).map
        (fun ds => ds.typical_weather)
      ≠ (summarizeSamples [(⟨3600, 20, "b", none⟩ : ForecastSample), ⟨0, 10, "a", none⟩]).map
        (fun ds => ds.typical_weather) := ⟨by decide, by decide⟩

/-- C5 (amended): aggregating the same multiset of samples in any two
input orders always yields identical dates, minimum, maximum and average
temperatures, with the output order determined solely by date; when in
addition every bucket has a unique most-frequent condition and a unique
most-frequent icon value, the outputs are fully identical.  (With a
frequency tie the winner depends on the unspecified enumeration order of
the distinct values, so the unconditional form of the claim fails, see
the counterexample.) -/
theorem summarize_order_invariance (samples samples' : List ForecastSample)
    (hp : samples.Perm samples') :
    ((summarizeSamples samples).map (fun ds => (ds.date, ds.min_temp, ds.max_temp, ds.avg_temp))
      = (summarizeSamples samples').map (fun ds => (ds.date, ds.min_temp, ds.max_temp, ds.avg_temp)))
    ∧ ((∀ d ∈ sortedKeys samples,
          hasUniqueMax ((dayGroup samples d).map (fun s => s.description))
          ∧ hasUniqueMax ((dayGroup samples d).map (fun s => s.icon)))
        → summarizeSamples samples = summarizeSamples samples') := by
  have hkeys := sortedKeys_perm hp
  have hgp : ∀ d : Int, (dayGroup samples d).Perm (dayGroup samples' d) :=
    fun d => hp.filter _
  have htp : ∀ d : Int, ((dayGroup samples d).map (fun s => s.temp)).Perm
      ((dayGroup samples' d).map (fun s => s.temp)) := fun d => (hgp d).map _
  constructor
  · unfold summarizeSamples
    rw [← hkeys, List.map_map, List.map_map]
    apply List.map_congr_left
    intro d _
    simp only [Function.comp_apply, mkSummary_date, mkSummary_min_temp, mkSummary_max_temp,
      mkSummary_avg_temp]
    rw [listMin_perm (htp d), listMax_perm (htp d), (htp d).sum_eq, (htp d).length_eq]
  · intro huniq
    unfold summarizeSamples
    rw [← hkeys]
    apply List.map_congr_left
    intro d hd
    rcases huniq d hd with ⟨⟨mdesc, hmdesc, hmajdesc⟩, ⟨micon, hmicon, hmajicon⟩⟩
    have hdp : ((dayGroup samples d).map (fun s => s.description)).Perm
        ((dayGroup samples' d).map (fun s => s.description)) := (hgp d).map _
    have hip : ((dayGroup samples d).map (fun s => s.icon)).Perm
        ((dayGroup samples' d).map (fun s => s.icon)) := (hgp d).map _
    have hmaj2 : ∀ x ∈ (dayGroup samples' d).map (fun s => s.description), x ≠ mdesc →
        ((dayGroup samples' d).map (fun s => s.description)).count x
          < ((dayGroup samples' d).map (fun s => s.description)).count mdesc := by
      intro x hx hne
      rw [← count_perm hdp x, ← count_perm hdp mdesc]
      exact hmajdesc x (hdp.mem_iff.2 hx) hne
    have hmaj3 : ∀ x ∈ (dayGroup samples' d).map (fun s => s.icon), x ≠ micon →
        ((dayGroup samples' d).map (fun s => s.icon)).count x
          < ((dayGroup samples' d).map (fun s => s.icon)).count micon := by
      intro x hx hne
      rw [← count_perm hip x, ← count_perm hip micon]
      exact hmajicon x (hip.mem_iff.2 hx) hne
    apply DaySummary.ext
    · rfl
    · simp only [mkSummary_min_temp]
      exact listMin_perm (htp d)
    · simp only [mkSummary_max_temp]
      exact listMax_perm (htp d)
    · simp only [mkSummary_avg_temp]
      rw [(htp d).sum_eq, (htp d).length_eq]
    · simp only [mkSummary_typical_weather]
      rw [mostCommon_majority hmdesc hmajdesc,
        mostCommon_majority (hdp.mem_iff.1 hmdesc) hmaj2]
    · simp only [mkSummary_icon]
      rw [mostCommonIcon_majority hmicon hmajicon,
        mostCommonIcon_majority (hip.mem_iff.1 hmicon) hmaj3]

/-- Witness for the amended C5: a shuffled three-sample input with
unique majorities aggregates to the identical output. -/
theorem summarize_order_invariance_witness :
    summarizeSamples [(⟨0, 10, "clear", none⟩ : ForecastSample), ⟨10800, 20, "clear", none⟩,
        ⟨21600, 15, "rain", none⟩]
      = summarizeSamples [(⟨21600, 15, "rain", none⟩ : ForecastSample), ⟨0, 10, "clear", none⟩,
        ⟨10800, 20, "clear", none⟩] :=
  (summarize_order_invariance
    [(⟨0, 10, "clear", none⟩ : ForecastSample), ⟨10800, 20, "clear", none⟩, ⟨21600, 15, "rain", none⟩]
    [(⟨21600, 15, "rain", none⟩ : ForecastSample), ⟨0, 10, "clear", none⟩, ⟨10800, 20, "clear", none⟩]
    (by decide)).2 (by decide)

/-- C6 counterexample: in a bucket where two samples lack an icon and one
carries the icon "01d", the missing marker wins the count and the
summary icon is absent although a sample carries an icon, so absence is
not equivalent to the absence of icons in the bucket. -/
theorem typical_icon_cx :
    (summarizeSamples [(⟨0, 10, "clear", none⟩ : ForecastSample), ⟨3600, 11, "clear", none⟩,
        ⟨7200, 12, "clear", some "01d"⟩]).map (fun ds => ds.icon) = [none]
    ∧ some "01d" ∈ [(⟨0, 10, "clear", none⟩ : ForecastSample), ⟨3600, 11, "clear", none⟩,
        ⟨7200, 12, "clear", some "01d"⟩].map (fun s => s.icon) := ⟨by decide, by decide⟩

/-- C6 (amended): the summary icon is the strict-majority value of the
icon entries of the bucket, with the missing marker taking part in the
count: if every sample of the bucket lacks an icon, the summary icon is
absent, and any icon value with a strict majority (present or missing)
becomes the summary icon; absence therefore does not imply that no
sample carries an icon. -/
theorem typical_icon_majority_spec (samples : List ForecastSample) (ds : DaySummary)
    (h : ds ∈ summarizeSamples samples) :
    ((∀ i ∈ (dayGroup samples ds.date).map (fun s => s.icon), i = none) → ds.icon = none)
    ∧ (∀ v : Option String, v ∈ (dayGroup samples ds.date).map (fun s => s.icon) →
        (∀ x ∈ (dayGroup samples ds.date).map (fun s => s.icon), x ≠ v →
          ((dayGroup samples ds.date).map (fun s => s.icon)).count x
            < ((dayGroup samples ds.date).map (fun s => s.icon)).count v) →
        ds.icon = v) := by
  rcases List.mem_map.1 h with ⟨d, _, rfl⟩
  simp only [mkSummary_date, mkSummary_icon]
  exact ⟨fun hall => mostCommonIcon_none hall,
    fun v hv hmaj => mostCommonIcon_majority hv hmaj⟩

/-- Witness for the amended C6: a bucket with icon entries 10d, 10d, 01d
has the strict majority 10d as summary icon. -/
theorem typical_icon_majority_spec_witness :
    (mkSummary [(⟨0, 10, "clear", some "10d"⟩ : ForecastSample), ⟨3600, 11, "clear", some "10d"⟩,
        ⟨7200, 12, "sun", some "01d"⟩] 0).icon = some "10d" := by
  have hmem : mkSummary [(⟨0, 10, "clear", some "10d"⟩ : ForecastSample),
        ⟨3600, 11, "clear", some "10d"⟩, ⟨7200, 12, "sun", some "01d"⟩] 0
      ∈ summarizeSamples [(⟨0, 10, "clear", some "10d"⟩ : ForecastSample),
        ⟨3600, 11, "clear", some "10d"⟩, ⟨7200, 12, "sun", some "01d"⟩] :=
    List.mem_map_of_mem (mkSummary [(⟨0, 10, "clear", some "10d"⟩ : ForecastSample),
        ⟨3600, 11, "clear", some "10d"⟩, ⟨7200, 12, "sun", some "01d"⟩])
      (show (0 : Int) ∈ sortedKeys [(⟨0, 10, "clear", some "10d"⟩ : ForecastSample),
        ⟨3600, 11, "clear", some "10d"⟩, ⟨7200, 12, "sun", some "01d"⟩] by decide)
  exact (typical_icon_majority_spec _ _ hmem).2 (some "10d") (by decide) (by decide)

/-- The exit code of run_cli alone: 1 when the credential is missing
(uncaught RuntimeError) and 1 on any failure inside the try block,
otherwise 0. -/
theorem run_cli_exit (args : Args) (w : CliWorld) :
    (run_cli args w).1 =
      if !(get_api_key args.api_key w.env_key).isOk then 1
      else if runtime_failure args w then 1
      else 0 := by
  unfold run_cli runtime_failure
  cases hk : get_api_key args.api_key w.env_key <;>
    cases hb : (args.lat.isSome && args.lon.isSome) <;>
      cases hg : w.geocode <;>
        cases hc : w.current <;>
          cases hf : w.forecastRaw <;>
            cases hsj : args.save_json <;>
              cases hsv : w.save_ok <;>
                cases hpk : w.parse_ok <;>
                  simp [hk, hb, hg, hc, hf, hsj, hsv, hpk, Except.isOk, Except.toBool]

/-- C7 counterexample: with a city given and no credential on the
command line or in the environment, the text-mode entry point ends with
exit status 1 — the RuntimeError raised by get_api_key before the try
block is never caught, and the interpreter exits with status 1 — not
with the claimed configuration-error status 2. -/
theorem exit_code_cx :
    (main_exit
      { city := some "London", lat := none, lon := none, api_key := none,
        units := "metric", save_json := none, days := 5, streamlit := false }
      { env_key := none, geocode := Except.ok (0, 0, "London, GB"),
        current := Except.ok "cur", forecastRaw := Except.ok "fc",
        save_ok := true, parse_ok := true, st_exit := 0 }).1 = 1
    ∧ (main_exit
      { city := some "London", lat := none, lon := none, api_key := none,
        units := "metric", save_json := none, days := 5, streamlit := false }
      { env_key := none, geocode := Except.ok (0, 0, "London, GB"),
        current := Except.ok "cur", forecastRaw := Except.ok "fc",
        save_ok := true, parse_ok := true, st_exit := 0 }).1 ≠ 2 :=
  ⟨by decide, by decide⟩

/-- C7 (amended): in text mode the entry point exits 2 exactly on a
usage error (missing location input, or lat without lon), exits 1 when
the API credential is missing (the RuntimeError escapes uncaught and the
interpreter terminates with status 1) and on every runtime failure
inside the pipeline, and exits 0 on success. -/
theorem exit_code_spec (args : Args) (w : CliWorld) (hst : args.streamlit = false) :
    (main_exit args w).1 =
      if usage_error args then 2
      else if !(get_api_key args.api_key w.env_key).isOk then 1
      else if runtime_failure args w then 1
      else 0 := by
  unfold main_exit usage_error
  cases h1 : (args.lat.isSome && args.lon.isNone) with
  | true => simp [h1, hst]
  | false =>
    cases h2 : (args.lat.isNone && !(truthy args.city)) with
    | true => simp [h1, h2, hst]
    | false => simp [h1, h2, hst, run_cli_exit]

/-- Witness for the amended C7: a successful city-mode run exits with
the code the right side computes, namely 0. -/
theorem exit_code_spec_witness :
    (main_exit
      { city := some "London", lat := none, lon := none, api_key := some "KEY",
        units := "metric", save_json := none, days := 5, streamlit := false }
      { env_key := none, geocode := Except.ok (0, 0, "London, GB"),
        current := Except.ok "cur", forecastRaw := Except.ok "fc",
        save_ok := true, parse_ok := true, st_exit := 0 }).1 =
      if usage_error
          { city := some "London", lat := none, lon := none, api_key := some "KEY",
            units := "metric", save_json := none, days := 5, streamlit := false } then 2
      else if !(get_api_key (some "KEY") none).isOk then 1
      else if runtime_failure
          { city := some "London", lat := none, lon := none, api_key := some "KEY",
            units := "metric", save_json := none, days := 5, streamlit := false }
          { env_key := none, geocode := Except.ok (0, 0, "London, GB"),
            current := Except.ok "cur", forecastRaw := Except.ok "fc",
            save_ok := true, parse_ok := true, st_exit := 0 } then 1
      else 0 :=
  exit_code_spec
    { city := some "London", lat := none, lon := none, api_key := some "KEY",
      units := "metric", save_json := none, days := 5, streamlit := false }
    { env_key := none, geocode := Except.ok (0, 0, "London, GB"),
      current := Except.ok "cur", forecastRaw := Except.ok "fc",
      save_ok := true, parse_ok := true, st_exit := 0 }
    rfl

/-- C8: whenever a document is persisted by the save-json option, it
consists of exactly the three top-level keys resolved, current and
forecast in this order, and both the current-weather fetch and the
forecast fetch have already succeeded, their payloads being the ones
persisted — no partial document is ever written. -/
theorem saved_doc_spec (args : Args) (w : CliWorld) (doc : List (String × String))
    (h : (main_exit args w).2 = some doc) :
    doc.map Prod.fst = ["resolved", "current", "forecast"]
    ∧ ∃ name cur fc, w.current = Except.ok cur ∧ w.forecastRaw = Except.ok fc
        ∧ doc = [("resolved", name), ("current", cur), ("forecast", fc)]
        ∧ args.save_json.isSome = true := by
  unfold main_exit run_cli at h
  cases h1 : (args.lat.isSome && args.lon.isNone) <;>
    cases hst : args.streamlit <;>
      cases h2 : (args.lat.isNone && !(truthy args.city)) <;>
        cases hk : get_api_key args.api_key w.env_key <;>
          cases hb : (args.lat.isSome && args.lon.isSome) <;>
            cases hg : w.geocode <;>
              cases hc : w.current <;>
                cases hf : w.forecastRaw <;>
                  cases hsj : args.save_json <;>
                    cases hsv : w.save_ok <;>
                      cases hpk : w.parse_ok <;>
                        simp [h1, hst, h2, hk, hb, hg, hc, hf, hsj, hsv, hpk] at h <;>
                          (subst h; exact ⟨rfl, _, _, _, rfl, rfl, rfl, rfl⟩)

/-- Witness for C8: a run with save-json requested persists the full
three-key document of the two fetched payloads. -/
theorem saved_doc_spec_witness :
    ([("resolved", "London, GB"), ("current", "cur"), ("forecast", "fc")]
        : List (String × String)).map Prod.fst = ["resolved", "current", "forecast"]
    ∧ ∃ name cur fc, (Except.ok "cur" : Except String String) = Except.ok cur
        ∧ (Except.ok "fc" : Except String String) = Except.ok fc
        ∧ ([("resolved", "London, GB"), ("current", "cur"), ("forecast", "fc")]
            : List (String × String)) = [("resolved", name), ("current", cur), ("forecast", fc)]
        ∧ (some "out.json" : Option String).isSome = true :=
  saved_doc_spec
    { city := some "London", lat := none, lon := none, api_key := some "KEY",
      units := "metric", save_json := some "out.json", days := 5, streamlit := false }
    { env_key := none, geocode := Except.ok (0, 0, "London, GB"),
      current := Except.ok "cur", forecastRaw := Except.ok "fc",
      save_ok := true, parse_ok := true, st_exit := 0 }
    [("resolved", "London, GB"), ("current", "cur"), ("forecast", "fc")]
    (by decide)

/-- C9: the text renderer prints one header line, then exactly
min(days, available) summary lines, the line at position i + 1 being the
rendering of the input summary at position i — so the order is kept and
nothing is padded, filtered or re-sorted, and a short input renders
without error — and one closing empty line. -/
theorem render_take_spec (summary : List DaySummary) (lbl : String) (days : Nat) :
    (print_forecast_summary summary lbl days).length = min days summary.length + 2
    ∧ ∀ i, i < min days summary.length →
        (print_forecast_summary summary lbl days)[i + 1]? =
          (summary[i]?).map (render_day_line lbl) := by
  constructor
  · simp [print_forecast_summary, List.length_take]
  · intro i hi
    have h1 : i < ((summary.take days).map (render_day_line lbl)).length := by
      simpa [List.length_take] using hi
    have h2 : i + 1 < (("Forecast summary (next " ++ toString (min days summary.length)
        ++ " days):") :: (summary.take days).map (render_day_line lbl)).length := by
      simpa using Nat.succ_lt_succ h1
    simp only [print_forecast_summary]
    rw [List.getElem?_append, if_pos h2, List.getElem?_cons_succ, List.getElem?_map,
      List.getElem?_take, if_pos (lt_of_lt_of_le hi (min_le_left _ _))]

/-- Witness for C9: the renderer asked for five days of a two-day list
renders the first input summary as its first summary line. -/
theorem render_take_spec_witness :
    (print_forecast_summary [⟨0, 10, 20, 15, "clear", none⟩, ⟨1, 8, 9, 9, "rain", none⟩]
        "°C" 5)[1]? =
      (([⟨0, 10, 20, 15, "clear", none⟩, ⟨1, 8, 9, 9, "rain", none⟩]
          : List DaySummary)[0]?).map (render_day_line "°C") :=
  (render_take_spec [⟨0, 10, 20, 15, "clear", none⟩, ⟨1, 8, 9, 9, "rain", none⟩]
    "°C" 5).2 0 (by decide)

end Weather
